import Mathlib

/-!
# Verification of the Theodor Node SDK session layer

Shallow embedding of the Connection Session & Prediction Correlation Layer
of the Theodor Node SDK (the `TheodorClient` / `WebSocketClient` classes).
Each definition mirrors a function or handler of the source file; theorems
settle the specification claims about them.
-/

namespace Theodor

/-! ## Constants (source header) -/

def MAX_WEBSOCKET_FAILS : Nat := 7

def MIN_WEBSOCKET_RETRY_TIME : Nat := 3000

def MAX_WEBSOCKET_RETRY_TIME : Nat := 300000

def PREDICTION_POLL_INTERVAL : Nat := 2000

/-! ## Reconnect backoff (`WebSocketClient.initialize`, `Conn.onclose`)

`Conn.onclose` increments `connectFailCount`, then computes a retry delay:
`retryTime = MIN_WEBSOCKET_RETRY_TIME`; when the incremented count exceeds
`MAX_WEBSOCKET_FAILS` it becomes `MIN * count * count`, capped at
`MAX_WEBSOCKET_RETRY_TIME`.  `Conn.onopen` resets `connectFailCount` to 0. -/

/-- `connectFailCount` update performed at the top of `Conn.onclose`. -/
def oncloseFailCount (connectFailCount : Nat) : Nat := connectFailCount + 1

/-- `connectFailCount` reset performed at the end of `Conn.onopen`. -/
def onopenFailCount (_ : Nat) : Nat := 0

/-- Retry delay computed in `Conn.onclose` from the already-incremented
`connectFailCount`. -/
def oncloseRetryTime (connectFailCount : Nat) : Nat :=
  if connectFailCount > MAX_WEBSOCKET_FAILS then
    let rt := MIN_WEBSOCKET_RETRY_TIME * connectFailCount * connectFailCount
    if rt > MAX_WEBSOCKET_RETRY_TIME then MAX_WEBSOCKET_RETRY_TIME else rt
  else
    MIN_WEBSOCKET_RETRY_TIME

lemma oncloseRetryTime_eq (c : Nat) :
    oncloseRetryTime c =
      if c > MAX_WEBSOCKET_FAILS then
        min MAX_WEBSOCKET_RETRY_TIME (MIN_WEBSOCKET_RETRY_TIME * c * c)
      else MIN_WEBSOCKET_RETRY_TIME := by
  unfold oncloseRetryTime
  split
  · simp only [Nat.min_def]
    split <;> split <;> omega
  · rfl

lemma oncloseRetryTime_base (c : Nat) (h : c ≤ MAX_WEBSOCKET_FAILS) :
    oncloseRetryTime c = MIN_WEBSOCKET_RETRY_TIME := by
  unfold oncloseRetryTime
  split
  · omega
  · rfl

lemma base_le_oncloseRetryTime (c : Nat) :
    MIN_WEBSOCKET_RETRY_TIME ≤ oncloseRetryTime c := by
  rw [oncloseRetryTime_eq]
  split
  · rename_i h
    have h8 : 8 ≤ c := h
    have : MIN_WEBSOCKET_RETRY_TIME ≤ MIN_WEBSOCKET_RETRY_TIME * c * c := by
      have : 1 * 1 ≤ c * c := Nat.mul_le_mul (by omega) (by omega)
      calc MIN_WEBSOCKET_RETRY_TIME = MIN_WEBSOCKET_RETRY_TIME * (1 * 1) := by ring
        _ ≤ MIN_WEBSOCKET_RETRY_TIME * (c * c) := Nat.mul_le_mul_left _ this
        _ = MIN_WEBSOCKET_RETRY_TIME * c * c := by ring
    have hc : MAX_WEBSOCKET_RETRY_TIME ≥ MIN_WEBSOCKET_RETRY_TIME := by decide
    exact le_min hc this
  · exact le_rfl

lemma oncloseRetryTime_mono (c : Nat) :
    oncloseRetryTime c ≤ oncloseRetryTime (c + 1) := by
  rw [oncloseRetryTime_eq, oncloseRetryTime_eq]
  by_cases h : c > MAX_WEBSOCKET_FAILS
  · have h' : c + 1 > MAX_WEBSOCKET_FAILS := by omega
    simp only [h, h', if_true]
    refine min_le_min le_rfl ?_
    have : c * c ≤ (c + 1) * (c + 1) := Nat.mul_le_mul (by omega) (by omega)
    calc MIN_WEBSOCKET_RETRY_TIME * c * c = MIN_WEBSOCKET_RETRY_TIME * (c * c) := by ring
      _ ≤ MIN_WEBSOCKET_RETRY_TIME * ((c + 1) * (c + 1)) := Nat.mul_le_mul_left _ this
      _ = MIN_WEBSOCKET_RETRY_TIME * (c + 1) * (c + 1) := by ring
  · simp only [h, if_false]
    have := base_le_oncloseRetryTime (c + 1)
    rw [oncloseRetryTime_eq] at this
    exact this

/-! ## Outgoing sends (`WebSocketClient.sendMessage`)

`sendMessage(action, data, responseCallback)` builds
`msg = { action, data, seq: this.responseSequence++, id: this.responseSequence }`
(so `seq` is the pre-increment value and `id` the post-increment value),
registers `responseCallbacks[msg.seq]` when a callback is given, and then:
with an OPEN connection it sends (a send error is caught, the connection is
dropped and `initialize()` is invoked); with no connection object or a CLOSED
one it logs "skipping message", drops the connection and invokes
`initialize()`; with a CONNECTING or CLOSING connection it does nothing. -/

/-- `WebSocket.readyState` of a live connection object. -/
inductive ReadyState where
  | connecting
  | opened
  | closing
  | closed
deriving DecidableEq, Repr

/-- State of a `WebSocketClient` relevant to `sendMessage`:
`responseSequence` starts at 1 in the constructor; `conn` is `none` when
`this.Conn === null`. -/
structure WSState where
  responseSequence : Nat
  conn : Option ReadyState
  responseCallbacks : List Nat
deriving DecidableEq, Repr

/-- Outgoing control frame `{ action, data, seq, id }`. -/
structure Frame where
  action : String
  data : String
  seq : Nat
  id : Nat
deriving DecidableEq, Repr

/-- Observable outcome of one `sendMessage` call. -/
structure SendOutcome where
  frame : Frame
  threw : Bool
  delivered : Bool
  reconnectAttempted : Bool
deriving DecidableEq, Repr

/-- `WebSocketClient.sendMessage`.  `sendFails` models the transport
`send` throwing (the `catch` branch); it is only consulted when the
connection is OPEN. -/
def sendMessage (s : WSState) (action data : String) (hasCallback : Bool)
    (sendFails : Bool) : WSState × SendOutcome :=
  let msg : Frame :=
    { action := action, data := data,
      seq := s.responseSequence, id := s.responseSequence + 1 }
  let s1 : WSState :=
    { s with
      responseSequence := s.responseSequence + 1,
      responseCallbacks :=
        if hasCallback then msg.seq :: s.responseCallbacks
        else s.responseCallbacks }
  match s1.conn with
  | some .opened =>
      if sendFails then
        ({ s1 with conn := none },
         { frame := msg, threw := false, delivered := false,
           reconnectAttempted := true })
      else
        (s1, { frame := msg, threw := false, delivered := true,
               reconnectAttempted := false })
  | none =>
      ({ s1 with conn := none },
       { frame := msg, threw := false, delivered := false,
         reconnectAttempted := true })
  | some .closed =>
      ({ s1 with conn := none },
       { frame := msg, threw := false, delivered := false,
         reconnectAttempted := true })
  | some .connecting =>
      (s1, { frame := msg, threw := false, delivered := false,
             reconnectAttempted := false })
  | some .closing =>
      (s1, { frame := msg, threw := false, delivered := false,
             reconnectAttempted := false })

/-- One send request of a session trace: the payload together with the
connection state the transport happens to be in when the send is issued
(the transport may open, drop or reconnect between sends). -/
structure SendReq where
  action : String
  data : String
  hasCallback : Bool
  sendFails : Bool
  conn : Option ReadyState
deriving DecidableEq, Repr

/-- Run a list of `sendMessage` calls within one session (no intervening
`close()`); before each call the connection is set to whatever state the
transport is in for that send. -/
def runSends (s : WSState) : List SendReq → List Frame
  | [] => []
  | r :: rest =>
      let (s', out) :=
        sendMessage { s with conn := r.conn } r.action r.data
          r.hasCallback r.sendFails
      out.frame :: runSends s' rest

/-- Fresh `WebSocketClient` constructor state: `responseSequence = 1`,
`Conn = null`, no response callbacks. -/
def initialWSState : WSState :=
  { responseSequence := 1, conn := none, responseCallbacks := [] }

lemma sendMessage_seq (s : WSState) (action data : String)
    (hasCallback sendFails : Bool) :
    (sendMessage s action data hasCallback sendFails).2.frame.seq
      = s.responseSequence := by
  unfold sendMessage
  rcases s with ⟨n, conn, cbs⟩
  rcases conn with _ | st
  · rfl
  · cases st <;> cases sendFails <;> rfl

lemma sendMessage_responseSequence (s : WSState) (action data : String)
    (hasCallback sendFails : Bool) :
    (sendMessage s action data hasCallback sendFails).1.responseSequence
      = s.responseSequence + 1 := by
  unfold sendMessage
  rcases s with ⟨n, conn, cbs⟩
  rcases conn with _ | st
  · rfl
  · cases st <;> cases sendFails <;> rfl

lemma runSends_seqs (reqs : List SendReq) :
    ∀ s : WSState,
      (runSends s reqs).map Frame.seq
        = List.range' s.responseSequence reqs.length := by
  induction reqs with
  | nil => intro s; rfl
  | cons r rest ih =>
      intro s
      simp only [runSends, List.map_cons, List.range', List.length_cons]
      rw [sendMessage_seq, ih, sendMessage_responseSequence]

/-! ## Inbound frame routing (`WebSocketClient.initialize`, `Conn.onmessage`)

`Conn.onmessage` parses the frame and, when `msg.seq_reply` is truthy
(present and nonzero), looks up `responseCallbacks[msg.seq_reply]`: when a
callback is registered it is invoked and deleted, otherwise nothing happens
(an `error` field is merely logged).  Otherwise the frame is a broadcast
event: `serverSequence` is set to `msg.seq + 1` and the event callback is
invoked. -/

/-- Inbound frame fields: either a reply (`seq_reply` set) or a broadcast
event (`event`, `seq`). -/
structure InMsg where
  seqReply : Option Nat
  hasError : Bool
  event : String
  seq : Nat
deriving DecidableEq, Repr

/-- Router state touched by `Conn.onmessage`: registered response-callback
keys and the resume cursor `serverSequence`. -/
structure RouterState where
  responseCallbacks : List Nat
  serverSequence : Nat
deriving DecidableEq, Repr

/-- Observable effect of routing one inbound frame. -/
structure RouterEffect where
  invokedCallback : Option Nat
  errorRaised : Bool
  eventDispatched : Bool
deriving DecidableEq, Repr

/-- Broadcast-event branch of `Conn.onmessage`: advance `serverSequence`
to `msg.seq + 1` and dispatch to the event callback. -/
def routeEvent (st : RouterState) (msg : InMsg) : RouterState × RouterEffect :=
  ({ st with serverSequence := msg.seq + 1 },
   { invokedCallback := none, errorRaised := false, eventDispatched := true })

/-- `Conn.onmessage` routing: `if (msg.seq_reply)` is the JS truthiness
test, so a present nonzero `seq_reply` selects the reply branch. -/
def onmessage (st : RouterState) (msg : InMsg) : RouterState × RouterEffect :=
  match msg.seqReply with
  | some r =>
      if r ≠ 0 then
        if r ∈ st.responseCallbacks then
          ({ st with responseCallbacks := st.responseCallbacks.erase r },
           { invokedCallback := some r, errorRaised := false,
             eventDispatched := false })
        else
          (st, { invokedCallback := none, errorRaised := false,
                 eventDispatched := false })
      else routeEvent st msg
  | none => routeEvent st msg

/-! ## Settlement of one pending prediction wait

`waitForPrediction(recordingId, timeout)` stores
`{ resolve, reject, timeoutId }` in `pendingPredictions`.  Five sources can
settle the wait, and each first checks `pendingPredictions.has(recordingId)`,
deletes the entry, and only then settles:

* the `RECORDING_CLASSIFIED` event callback (resolve, no `clearTimeout`);
* the `RECORDING_CLASSIFICATION_FAILURE` event callback (reject);
* the poll promise `.then` handler (`clearTimeout` then resolve);
* the poll promise `.catch` handler (`clearTimeout` then reject);
* the deadline `setTimeout` handler (reject).
-/

/-- A `pendingPredictions` map entry `{ resolve, reject, timeoutId }`;
`waiter` identifies the resolve/reject pair of the wait that registered it. -/
structure PendingEntry where
  waiter : Nat
  timeoutId : Nat
deriving DecidableEq, Repr

/-- State of one recording id's wait: the map entry (if present) plus a log
of settlements performed and deadline timers cleared. -/
structure WaitState where
  entry : Option PendingEntry
  resolutions : List Nat
  rejections : List Nat
  clearedTimeouts : List Nat
deriving DecidableEq, Repr

/-- The five settlement sources racing for one recording id. -/
inductive SettleSource where
  | eventClassified
  | eventFailed
  | pollResolved
  | pollRejected
  | deadlineFired
deriving DecidableEq, Repr

/-- Fire one settlement source: each source begins with
`pendingPredictions.has(recordingId)`, deletes the entry, and only then
settles (the poll handlers additionally `clearTimeout` the deadline). -/
def fireSource (s : WaitState) (src : SettleSource) : WaitState :=
  match s.entry with
  | none => s
  | some e =>
      match src with
      | .eventClassified =>
          { s with entry := none, resolutions := s.resolutions ++ [e.waiter] }
      | .eventFailed =>
          { s with entry := none, rejections := s.rejections ++ [e.waiter] }
      | .pollResolved =>
          { s with
            entry := none
            clearedTimeouts := s.clearedTimeouts ++ [e.timeoutId]
            resolutions := s.resolutions ++ [e.waiter] }
      | .pollRejected =>
          { s with
            entry := none
            clearedTimeouts := s.clearedTimeouts ++ [e.timeoutId]
            rejections := s.rejections ++ [e.waiter] }
      | .deadlineFired =>
          { s with entry := none, rejections := s.rejections ++ [e.waiter] }

/-- Fire a sequence of settlement sources in order (the JS event loop runs
their handlers one at a time). -/
def fireAll (s : WaitState) (srcs : List SettleSource) : WaitState :=
  srcs.foldl fireSource s

/-- State right after `waitForPrediction` registers its entry. -/
def initWait (waiter timeoutId : Nat) : WaitState :=
  { entry := some { waiter := waiter, timeoutId := timeoutId },
    resolutions := [], rejections := [], clearedTimeouts := [] }

/-- Number of times the wait's promise was settled (resolve or reject). -/
def settleCount (s : WaitState) : Nat :=
  s.resolutions.length + s.rejections.length

lemma fireSource_entry_none (s : WaitState) (src : SettleSource)
    (h : s.entry = none) : fireSource s src = s := by
  unfold fireSource
  rw [h]

lemma fireAll_entry_none (srcs : List SettleSource) (s : WaitState)
    (h : s.entry = none) : fireAll s srcs = s := by
  induction srcs with
  | nil => rfl
  | cons src rest ih =>
      unfold fireAll
      rw [List.foldl_cons, fireSource_entry_none s src h]
      exact ih

lemma fireSource_settles (w t : Nat) (src : SettleSource) :
    (fireSource (initWait w t) src).entry = none
      ∧ settleCount (fireSource (initWait w t) src) = 1 := by
  cases src <;> simp [fireSource, initWait, settleCount]

/-! ## Duplicate registration (`waitForPrediction`, `pendingPredictions.set`)

`waitForPrediction` registers its waiter with
`this.pendingPredictions.set(recordingId, { resolve, reject, timeoutId })`;
`Map.set` replaces any existing binding for the key. -/

/-- Effects a registration could have on a prior waiter for the same id. -/
structure RegisterEffect where
  rejectedNew : Bool
  failedPrior : Bool
deriving DecidableEq, Repr

/-- `Map.set` on an association list: replace the binding if the key is
present, else append. -/
def mapSet (m : List (String × PendingEntry)) (k : String) (v : PendingEntry) :
    List (String × PendingEntry) :=
  match m with
  | [] => [(k, v)]
  | (k', v') :: rest =>
      if k' = k then (k, v) :: rest else (k', v') :: mapSet rest k v

/-- The registration step of `waitForPrediction`: an unconditional
`pendingPredictions.set`; no check for an existing entry is made, no error
is raised and no prior waiter is settled. -/
def registerWait (m : List (String × PendingEntry)) (recordingId : String)
    (e : PendingEntry) : List (String × PendingEntry) × RegisterEffect :=
  (mapSet m recordingId e, { rejectedNew := false, failedPrior := false })

/-! ## Closing the client (`TheodorClient.close`, `WebSocketClient.close`)

`TheodorClient.close` calls `this.ws.close()` — which sets `manuallyClosed`,
resets `connectFailCount` and `responseSequence`, stops the ping interval
and closes an OPEN transport, but never touches `responseCallbacks` — and
then loops over `pendingPredictions`, calling `clearTimeout(timeoutId)`,
`reject(new Error('Client closed'))` and deleting each entry.  Nothing
cancels the poll loops' scheduled sleeps or a scheduled reconnect timer. -/

/-- Client + transport state relevant to `close()`. -/
structure ClientState where
  pendingPredictions : List (String × PendingEntry)
  responseCallbacks : List Nat
  pollSleepTimers : List Nat
  reconnectTimers : List Nat
  pingIntervalActive : Bool
  manuallyClosed : Bool
  connectFailCount : Nat
  responseSequence : Nat
deriving DecidableEq, Repr

/-- Observable effect of `close()`. -/
structure CloseEffect where
  rejectedWaits : List String
  failedRequests : List Nat
  clearedTimers : List Nat
deriving DecidableEq, Repr

/-- The `for (... of this.pendingPredictions.entries())` loop of
`TheodorClient.close`: clear each deadline timer and reject each waiter
with `'Client closed'`. -/
def closeLoop : List (String × PendingEntry) → CloseEffect → CloseEffect
  | [], eff => eff
  | (rid, e) :: rest, eff =>
      closeLoop rest
        { eff with
          clearedTimers := eff.clearedTimers ++ [e.timeoutId],
          rejectedWaits := eff.rejectedWaits ++ [rid] }

/-- `TheodorClient.close`: `ws.close()` followed by the pending-prediction
loop.  `responseCallbacks`, poll sleeps and reconnect timers are untouched,
and no `responseCallbacks` entry is settled. -/
def clientClose (s : ClientState) : ClientState × CloseEffect :=
  let s1 : ClientState :=
    { s with
      manuallyClosed := true
      connectFailCount := 0
      responseSequence := 1
      pingIntervalActive := false }
  let eff := closeLoop s1.pendingPredictions
    { rejectedWaits := [], failedRequests := [], clearedTimers := [] }
  ({ s1 with pendingPredictions := [] }, eff)

lemma closeLoop_spec (l : List (String × PendingEntry)) (eff : CloseEffect) :
    closeLoop l eff =
      { rejectedWaits := eff.rejectedWaits ++ l.map Prod.fst,
        failedRequests := eff.failedRequests,
        clearedTimers := eff.clearedTimers ++ l.map (fun p => p.2.timeoutId) } := by
  induction l generalizing eff with
  | nil => simp [closeLoop]
  | cons p rest ih =>
      rcases p with ⟨rid, e⟩
      simp [closeLoop, ih]

/-! ## The fallback poller (`TheodorClient._pollForPrediction`)

`_pollForPrediction(recordingId, attempt, maxAttempts)`:
* `attempt >= maxAttempts` throws `'Prediction timeout ... after N attempts'`;
* otherwise it fetches the recording: a response whose `murmur` and `rhythm`
  are both truthy and both `!== "pending"` is returned, as is one whose
  `murmur` is `"normal"` or `"murmur"`; any other response sleeps
  `PREDICTION_POLL_INTERVAL` and recurses with `attempt + 1`;
* a fetch error with `status === 404` also sleeps and recurses; any other
  fetch error is rethrown.

The Lean recursion carries the remaining attempt budget
`maxAttempts - attempt` structurally; `pollForPrediction` restores the
source signature. -/

/-- The recording fields `_pollForPrediction` inspects; `none` models an
absent (falsy) field. -/
structure Recording where
  murmur : Option String
  rhythm : Option String
deriving DecidableEq, Repr

/-- Result of one `getRecording` fetch: a parsed recording, or the error
thrown by `_handleError` carrying the HTTP status when a response was
received. -/
inductive FetchResult where
  | ok (rec : Recording)
  | err (status : Option Nat)
deriving DecidableEq, Repr

/-- The completion test of `_pollForPrediction`: both classifications
present and not `"pending"`, or `murmur` equal to `"normal"`/`"murmur"`. -/
def isTerminal (rec : Recording) : Bool :=
  (match rec.murmur, rec.rhythm with
   | some m, some r => m != "pending" && r != "pending"
   | _, _ => false)
  || rec.murmur == some "normal" || rec.murmur == some "murmur"

/-- Outcome of the poll loop: the returned recording, the
`'Prediction timeout ... after N attempts'` error, or a rethrown
fetch error. -/
inductive PollOutcome where
  | success (rec : Recording)
  | pollTimeout (attempts : Nat)
  | failure (status : Option Nat)
deriving DecidableEq, Repr

/-- Body of `_pollForPrediction`, structurally recursive on the remaining
budget `maxAttempts - attempt` (zero budget is exactly the
`attempt >= maxAttempts` guard). -/
def pollAux (fetch : Nat → FetchResult) : Nat → Nat → PollOutcome
  | attempt, 0 => .pollTimeout attempt
  | attempt, remaining + 1 =>
      match fetch attempt with
      | .ok rec =>
          if isTerminal rec then .success rec
          else pollAux fetch (attempt + 1) remaining
      | .err status =>
          if status = some 404 then pollAux fetch (attempt + 1) remaining
          else .failure status

/-- `TheodorClient._pollForPrediction` with the source signature. -/
def pollForPrediction (fetch : Nat → FetchResult) (attempt maxAttempts : Nat) :
    PollOutcome :=
  pollAux fetch attempt (maxAttempts - attempt)

/-- Time-annotated poll loop: identical control flow, with `now` advanced by
`PREDICTION_POLL_INTERVAL` across each `setTimeout` sleep (fetches are
modelled as instantaneous). -/
def pollTimedAux (fetch : Nat → FetchResult) :
    Nat → Nat → Nat → PollOutcome × Nat
  | attempt, 0, now => (.pollTimeout attempt, now)
  | attempt, remaining + 1, now =>
      match fetch attempt with
      | .ok rec =>
          if isTerminal rec then (.success rec, now)
          else pollTimedAux fetch (attempt + 1) remaining
            (now + PREDICTION_POLL_INTERVAL)
      | .err status =>
          if status = some 404 then
            pollTimedAux fetch (attempt + 1) remaining
              (now + PREDICTION_POLL_INTERVAL)
          else (.failure status, now)

/-- Errors with which a prediction wait's promise can be rejected. -/
inductive WaitError where
  | pollExhausted (attempts : Nat)
  | fetchFailure (status : Option Nat)
  | deadlineTimeout
deriving DecidableEq, Repr

/-- Whether a rejection is one of the two timeout errors of the source
(`'Prediction timeout ... after N attempts'` from the poll loop, or
`'Prediction timeout for recording ...'` from the deadline timer). -/
def isTimeoutError : WaitError → Bool
  | .pollExhausted _ => true
  | .fetchFailure _ => false
  | .deadlineTimeout => true

/-- Settlement of a prediction wait's promise. -/
inductive SettleResult where
  | resolved (rec : Recording)
  | rejected (e : WaitError)
deriving DecidableEq, Repr

/-- How the poll promise's `.then`/`.catch` handlers settle the waiter. -/
def settleOfPoll : PollOutcome → SettleResult
  | .success rec => .resolved rec
  | .pollTimeout n => .rejected (.pollExhausted n)
  | .failure status => .rejected (.fetchFailure status)

/-- Settlement of one `waitForPrediction(recordingId, timeoutMs)` wait on
the WebSocket path when no matching broadcast event ever arrives: the poll
loop (started with `maxAttempts = Math.floor(timeout / PREDICTION_POLL_INTERVAL)`)
races the deadline `setTimeout(timeout)`.  Whichever completes strictly
earlier settles the waiter; at a tie the deadline timer (registered first)
is taken. -/
def waitSettlement (timeoutMs : Nat) (fetch : Nat → FetchResult) :
    SettleResult × Nat :=
  let maxAttempts := timeoutMs / PREDICTION_POLL_INTERVAL
  let r := pollTimedAux fetch 0 maxAttempts 0
  if r.2 < timeoutMs then (settleOfPoll r.1, r.2)
  else (.rejected .deadlineTimeout, timeoutMs)

/-- A fetch oracle that always reports HTTP 404. -/
def always404 : Nat → FetchResult := fun _ => .err (some 404)

lemma pollTimedAux_always404 (remaining : Nat) :
    ∀ attempt now, pollTimedAux always404 attempt remaining now
      = (.pollTimeout (attempt + remaining),
         now + PREDICTION_POLL_INTERVAL * remaining) := by
  induction remaining with
  | zero => intro attempt now; simp [pollTimedAux]
  | succ k ih =>
      intro attempt now
      simp only [pollTimedAux, always404, ih, if_true]
      rw [Prod.mk.injEq]
      constructor
      · rw [PollOutcome.pollTimeout.injEq]; omega
      · rw [PREDICTION_POLL_INTERVAL]; ring

/-! ## Claim theorems -/

/-- C1: for every job wait created by `waitForPrediction`, whichever of the
settlement sources (classification event, failure event, poll resolve, poll
reject, deadline timer) fire, and in whatever order — including the event
and poll paths resolving within the same instant — the wait's promise is
settled exactly once, because every source first checks the
`pendingPredictions` entry, removes it, and only then settles. -/
theorem claim1_jobWaitSettlesExactlyOnce (w t : Nat) (srcs : List SettleSource)
    (h : srcs ≠ []) :
    settleCount (fireAll (initWait w t) srcs) = 1 := by
  cases srcs with
  | nil => exact absurd rfl h
  | cons src rest =>
      have h1 := fireSource_settles w t src
      have h2 : fireAll (fireSource (initWait w t) src) rest
          = fireSource (initWait w t) src := fireAll_entry_none rest _ h1.1
      unfold fireAll at h2 ⊢
      rw [List.foldl_cons, h2]
      exact h1.2

/-- Witness for C1 at a concrete race: the poll path and the event path
both fire in the same instant; the wait settles once. -/
theorem claim1_witness :
    settleCount (fireAll (initWait 0 5)
      [SettleSource.pollResolved, SettleSource.eventClassified]) = 1 :=
  claim1_jobWaitSettlesExactlyOnce 0 5
    [SettleSource.pollResolved, SettleSource.eventClassified] (by decide)

/-- A client state with one pending prediction wait, one pending correlated
request (`responseCallbacks` key 5) and one scheduled poll-loop sleep. -/
def closeCounterexampleState : ClientState :=
  { pendingPredictions := [("r1", { waiter := 1, timeoutId := 11 })]
    responseCallbacks := [5]
    pollSleepTimers := [9]
    reconnectTimers := []
    pingIntervalActive := true
    manuallyClosed := false
    connectFailCount := 2
    responseSequence := 4 }

/-- C2 counterexample: after `close()` the pending correlated request
(`responseCallbacks` entry 5) is not settled with any error — it remains
registered — and the scheduled poll-loop sleep timer 9 remains pending,
contradicting the claim that every `responseCallbacks` entry settles with a
session-closed error and that no timers remain. -/
theorem claim2_counterexample :
    (clientClose closeCounterexampleState).2.failedRequests = []
    ∧ (clientClose closeCounterexampleState).1.responseCallbacks = [5]
    ∧ (clientClose closeCounterexampleState).1.pollSleepTimers = [9] := by
  decide

/-- C2 amended: `close()` synchronously rejects every outstanding
`waitForPrediction` wait with a `'Client closed'` error and clears its
deadline timer, emptying `pendingPredictions`; but it settles no
`responseCallbacks` entry (they stay registered) and cancels neither
scheduled poll-loop sleeps nor a scheduled reconnect timer. -/
theorem claim2_closeSettlesWaitsOnly (s : ClientState) :
    (clientClose s).2.rejectedWaits = s.pendingPredictions.map Prod.fst
    ∧ (clientClose s).2.clearedTimers
        = s.pendingPredictions.map (fun p => p.2.timeoutId)
    ∧ (clientClose s).1.pendingPredictions = []
    ∧ (clientClose s).2.failedRequests = []
    ∧ (clientClose s).1.responseCallbacks = s.responseCallbacks
    ∧ (clientClose s).1.pollSleepTimers = s.pollSleepTimers
    ∧ (clientClose s).1.reconnectTimers = s.reconnectTimers
    ∧ (clientClose s).1.manuallyClosed = true
    ∧ (clientClose s).1.pingIntervalActive = false := by
  simp only [clientClose, closeLoop_spec]
  simp

/-- C3: the reconnect delay computed in `Conn.onclose` equals the base
delay 3000ms while the incremented failure count is at or below the
threshold 7, and `min(300000, 3000·n²)` above it; it is non-decreasing in
the count, equals 192000ms for the 8th consecutive failure, and after a
successful open (which resets the count to 0) the next failure's delay is
the base again. -/
theorem claim3_backoffDelay :
    (∀ c, c ≤ MAX_WEBSOCKET_FAILS →
        oncloseRetryTime c = MIN_WEBSOCKET_RETRY_TIME)
    ∧ (∀ c, MAX_WEBSOCKET_FAILS < c →
        oncloseRetryTime c
          = min MAX_WEBSOCKET_RETRY_TIME (MIN_WEBSOCKET_RETRY_TIME * c * c))
    ∧ (∀ c, oncloseRetryTime c ≤ oncloseRetryTime (c + 1))
    ∧ oncloseRetryTime (oncloseFailCount 7) = 192000
    ∧ (∀ c, oncloseRetryTime (oncloseFailCount (onopenFailCount c))
        = MIN_WEBSOCKET_RETRY_TIME) := by
  refine ⟨oncloseRetryTime_base, ?_, oncloseRetryTime_mono, by decide, ?_⟩
  · intro c hc
    rw [oncloseRetryTime_eq]
    simp [hc]
  · intro c
    exact oncloseRetryTime_base 1 (by decide)

/-- Witness for C3 at concrete failure counts: below threshold the delay is
the base 3000ms; at count 9 it is `min(300000, 3000·81) = 243000`ms. -/
theorem claim3_witness :
    oncloseRetryTime 5 = 3000 ∧ oncloseRetryTime 9 = 243000 :=
  ⟨claim3_backoffDelay.1 5 (by decide),
   (claim3_backoffDelay.2.1 9 (by decide)).trans (by decide)⟩

/-- C4: within one session (no intervening `close()`), the `seq` values
assigned by successive `sendMessage` calls are exactly `1, 2, 3, …` —
strictly increasing, starting at 1, never repeating — regardless of the
connection state each send finds the transport in. -/
theorem claim4_seqStrictlyIncreasing (reqs : List SendReq) :
    (runSends initialWSState reqs).map Frame.seq = List.range' 1 reqs.length
    ∧ ((runSends initialWSState reqs).map Frame.seq).Pairwise (· < ·) := by
  have h := runSends_seqs reqs initialWSState
  refine ⟨h, ?_⟩
  rw [h]
  exact List.pairwise_lt_range' 1 reqs.length

/-- The C5 scenario's terminal recording: classification complete. -/
def scenarioRecording : Recording :=
  { murmur := some "normal", rhythm := some "regular" }

/-- The C5 scenario's fetch oracle: 404 on the first two polls, a terminal
success state on the third. -/
def scenarioFetch : Nat → FetchResult := fun n =>
  if n < 2 then .err (some 404) else .ok scenarioRecording

/-- C5: a fetch failing with status 404 is retried (the poll continues at
the next attempt) rather than surfaced as a terminal failure, as long as
the attempt bound is not exhausted; the bound is
`⌊timeoutMs / PREDICTION_POLL_INTERVAL⌋` (5 for timeout 10s, interval 2s),
and in the scenario — 404 twice, terminal success on the third poll — the
waiter settles with that success at 4000ms and no timeout error. -/
theorem claim5_notFoundRetried :
    (∀ (fetch : Nat → FetchResult) (attempt maxAttempts : Nat),
        attempt < maxAttempts →
        fetch attempt = FetchResult.err (some 404) →
        pollForPrediction fetch attempt maxAttempts
          = pollForPrediction fetch (attempt + 1) maxAttempts)
    ∧ 10000 / PREDICTION_POLL_INTERVAL = 5
    ∧ waitSettlement 10000 scenarioFetch
        = (.resolved scenarioRecording, 4000) := by
  refine ⟨?_, by decide, by decide⟩
  intro fetch a m hm hf
  unfold pollForPrediction
  obtain ⟨k, hk⟩ : ∃ k, m - a = k + 1 := ⟨m - a - 1, by omega⟩
  have hk' : m - (a + 1) = k := by omega
  rw [hk, hk']
  simp [pollAux, hf]

/-- Witness for C5: a 404 on the only allowed attempt is retried — the
poll at attempt 0 equals the poll at attempt 1. -/
theorem claim5_witness :
    pollForPrediction always404 0 1 = pollForPrediction always404 1 1 :=
  claim5_notFoundRetried.1 always404 0 1 (by decide) rfl

/-- C6 counterexample: with `timeoutMs = 5000`, no event and no successful
poll (every fetch 404s), the waiter settles with a timeout failure — the
poll loop's `'Prediction timeout ... after 2 attempts'` rejection — at
4000ms, strictly before the 5000ms deadline, refuting "settlement with a
timeout failure occurs at or after timeoutMs". -/
theorem claim6_counterexample :
    waitSettlement 5000 always404
      = (.rejected (.pollExhausted 2), 4000)
    ∧ isTimeoutError (.pollExhausted 2) = true
    ∧ 4000 < 5000 := by decide

/-- C6 amended: the deadline timer fires at `timeoutMs` and rejects the
waiter with a timeout failure if nothing settled it earlier, but it does
not cancel the poll loop's scheduled sleeps; and the waiter can settle
with a timeout failure before `timeoutMs`: with no event and no successful
poll, settlement is a timeout-failure rejection occurring at
`PREDICTION_POLL_INTERVAL · ⌊timeoutMs / PREDICTION_POLL_INTERVAL⌋` ms,
which is at most — and for `timeoutMs = 5000` strictly before —
`timeoutMs`. -/
theorem claim6_timeoutTiming (timeoutMs : Nat) :
    (∃ e, (waitSettlement timeoutMs always404).1 = SettleResult.rejected e
        ∧ isTimeoutError e = true)
    ∧ (waitSettlement timeoutMs always404).2
        = PREDICTION_POLL_INTERVAL * (timeoutMs / PREDICTION_POLL_INTERVAL)
    ∧ (waitSettlement timeoutMs always404).2 ≤ timeoutMs := by
  have hle : PREDICTION_POLL_INTERVAL * (timeoutMs / PREDICTION_POLL_INTERVAL)
      ≤ timeoutMs := Nat.mul_div_le timeoutMs PREDICTION_POLL_INTERVAL
  by_cases hlt : PREDICTION_POLL_INTERVAL * (timeoutMs / PREDICTION_POLL_INTERVAL)
      < timeoutMs
  · simp only [waitSettlement, pollTimedAux_always404, Nat.zero_add, hlt,
      if_true, settleOfPoll]
    refine ⟨⟨.pollExhausted (timeoutMs / PREDICTION_POLL_INTERVAL), rfl, rfl⟩,
      ?_, ?_⟩
    all_goals trivial
  · have heq : PREDICTION_POLL_INTERVAL * (timeoutMs / PREDICTION_POLL_INTERVAL)
        = timeoutMs := by omega
    simp only [waitSettlement, pollTimedAux_always404, Nat.zero_add, hlt,
      if_false]
    refine ⟨⟨.deadlineTimeout, rfl, rfl⟩, ?_, ?_⟩
    all_goals first | trivial | exact heq.symm

/-- C7: evaluating the registration step at the failing input — a second
`waitForPrediction` for `"r1"` while the first is outstanding — the
`pendingPredictions.set` silently replaces the first waiter's entry: the
new wait is not rejected, the prior waiter is not failed, and the prior
entry (waiter 1) is gone from the map, orphaned. -/
theorem claim7_duplicateWaitOverwrites :
    registerWait (registerWait [] "r1" { waiter := 1, timeoutId := 11 }).1
        "r1" { waiter := 2, timeoutId := 22 }
      = ([("r1", { waiter := 2, timeoutId := 22 })],
         { rejectedNew := false, failedPrior := false }) := by decide

/-- C8: an inbound frame whose (truthy) `seq_reply` matches no registered
response callback is dropped: no error is raised, no callback invoked, no
event dispatched, and both the callback map and the resume cursor
`serverSequence` are left unchanged. -/
theorem claim8_unmatchedReplyDropped (st : RouterState) (msg : InMsg) (r : Nat)
    (h1 : msg.seqReply = some r) (h2 : r ≠ 0)
    (h3 : r ∉ st.responseCallbacks) :
    onmessage st msg
      = (st, { invokedCallback := none, errorRaised := false,
               eventDispatched := false }) := by
  unfold onmessage
  rw [h1]
  simp [h2, h3]

/-- Witness for C8: reply key 5 matches neither registered callback (2, 3);
the router state is untouched. -/
theorem claim8_witness :
    onmessage { responseCallbacks := [2, 3], serverSequence := 10 }
        { seqReply := some 5, hasError := false, event := "e", seq := 9 }
      = ({ responseCallbacks := [2, 3], serverSequence := 10 },
         { invokedCallback := none, errorRaised := false,
           eventDispatched := false }) :=
  claim8_unmatchedReplyDropped
    { responseCallbacks := [2, 3], serverSequence := 10 }
    { seqReply := some 5, hasError := false, event := "e", seq := 9 }
    5 rfl (by decide) (by decide)

/-- A `WebSocketClient` whose connection object is in the CONNECTING
state. -/
def connectingWSState : WSState :=
  { responseSequence := 1, conn := some .connecting, responseCallbacks := [] }

/-- C9 counterexample: a `sendMessage` issued while the connection object
exists in the CONNECTING state triggers no fresh connection attempt (and
the frame is silently dropped, not reported), refuting the claim that every
non-open send triggers a reconnect. -/
theorem claim9_counterexample :
    (sendMessage connectingWSState "ping" "d" false false).2.reconnectAttempted
        = false
    ∧ (sendMessage connectingWSState "ping" "d" false false).2.delivered
        = false := by decide

/-- C9 amended: a `sendMessage` while the connection is not open never
throws to the caller and never delivers the frame, and it triggers a fresh
connection attempt exactly when the connection object is absent or in the
CLOSED state — a send during CONNECTING or CLOSING is silently dropped
without triggering a reconnect. -/
theorem claim9_sendNotOpen (s : WSState) (action data : String)
    (hasCallback sendFails : Bool) (h : s.conn ≠ some ReadyState.opened) :
    (sendMessage s action data hasCallback sendFails).2.threw = false
    ∧ (sendMessage s action data hasCallback sendFails).2.delivered = false
    ∧ ((sendMessage s action data hasCallback sendFails).2.reconnectAttempted
          = true
        ↔ (s.conn = none ∨ s.conn = some ReadyState.closed)) := by
  rcases s with ⟨n, conn, cbs⟩
  rcases conn with _ | st
  · simp [sendMessage]
  · cases st <;> simp_all [sendMessage]

/-- Witness for C9 at a concrete non-open state (no connection object):
nothing thrown, nothing delivered, reconnect attempted. -/
theorem claim9_witness :
    (sendMessage initialWSState "ping" "d" false false).2.threw = false
    ∧ (sendMessage initialWSState "ping" "d" false false).2.delivered = false
    ∧ ((sendMessage initialWSState "ping" "d" false false).2.reconnectAttempted
          = true
        ↔ (initialWSState.conn = none
            ∨ initialWSState.conn = some ReadyState.closed)) :=
  claim9_sendNotOpen initialWSState "ping" "d" false false (by decide)

/-- C10: every frame constructed by `sendMessage` — for every action,
payload, prior sequence value, connection state and send outcome — carries
`id = seq + 1`: `seq` is the pre-increment `responseSequence`, `id` the
post-increment one. -/
theorem claim10_frameIdEqSeqPlusOne (s : WSState) (action data : String)
    (hasCallback sendFails : Bool) :
    (sendMessage s action data hasCallback sendFails).2.frame.id
      = (sendMessage s action data hasCallback sendFails).2.frame.seq + 1 := by
  rcases s with ⟨n, conn, cbs⟩
  rcases conn with _ | st
  · rfl
  · cases st <;> cases sendFails <;> rfl

end Theodor
